import Mathlib

/-!
Verification of the runtime-dispatched CRC engine
(`arch/x86/lib/crc-pclmul-template-glue.h`) and of the AMD 3D V-Cache
sysfs driver (`drivers/platform/x86/amd/x3d_vcache.c`), via a shallow
embedding of both in Lean.
-/

namespace CrcPclmul

/-- Snapshot of the boolean capabilities read by `INIT_CRC_PCLMUL`:
`IS_ENABLED(CONFIG_AS_VPCLMULQDQ)`, `boot_cpu_has(X86_FEATURE_VPCLMULQDQ)`,
`boot_cpu_has(X86_FEATURE_AVX2)`, `cpu_has_xfeatures(XFEATURE_MASK_YMM)`,
`boot_cpu_has(X86_FEATURE_AVX512BW)`, `boot_cpu_has(X86_FEATURE_AVX512VL)`,
`cpu_has_xfeatures(XFEATURE_MASK_AVX512)`, and
`boot_cpu_has(X86_FEATURE_PREFER_YMM)`. -/
structure FeatureSet where
  as_vpclmulqdq : Bool
  vpclmulqdq : Bool
  avx2 : Bool
  xfeatures_ymm : Bool
  avx512bw : Bool
  avx512vl : Bool
  xfeatures_avx512 : Bool
  prefer_ymm : Bool
deriving DecidableEq

/-- The four concrete functions declared by `DECLARE_CRC_PCLMUL_FUNCS`,
any one of which can sit in the static-call slot. `pclmul_sse` is the
default installed by `DEFINE_STATIC_CALL`. -/
inductive PclmulFn
  | pclmul_sse
  | vpclmul_avx2
  | vpclmul_avx10_256
  | vpclmul_avx10_512
deriving DecidableEq

/-- The initial content of the static-call slot:
`DEFINE_STATIC_CALL(..., ..._pclmul_sse)`. -/
def initialSlot : PclmulFn := .pclmul_sse

/-- `INIT_CRC_PCLMUL`, embedded from the source.  It receives the current
slot content and returns the slot content after the macro runs, paired
with the number of `static_call_update` calls it performed. -/
def initCrcPclmul (fs : FeatureSet) (slot : PclmulFn) : PclmulFn × Nat :=
  if fs.as_vpclmulqdq && fs.vpclmulqdq && fs.avx2 && fs.xfeatures_ymm then
    if fs.avx512bw && fs.avx512vl && fs.xfeatures_avx512 then
      if fs.prefer_ymm then (.vpclmul_avx10_256, 1)
      else (.vpclmul_avx10_512, 1)
    else (.vpclmul_avx2, 1)
  else (slot, 0)

/-- The spec's ordered decision table (section 4.1), written from the
spec's words for comparison with `initCrcPclmul`: the inputs are
carry-less-multiply support, the base wide vector extension, OS context
support for it, the widest vector extension, OS context support for the
widest extension, and the prefer-narrower hint. -/
def probeSpecTable (clmul wideVec osWide widest osWidest preferNarrow : Bool) :
    PclmulFn :=
  if clmul && wideVec && osWide then
    if widest && osWidest then
      if preferNarrow then .vpclmul_avx10_256 else .vpclmul_avx10_512
    else .vpclmul_avx2
  else .pclmul_sse

/-- A feature set with every flag false. -/
def fsNone : FeatureSet :=
  ⟨false, false, false, false, false, false, false, false⟩

/-- Carry-less multiply plus the base wide (256-bit) extension and its OS
support only; no AVX-512 class features. -/
def fsBaseOnly : FeatureSet :=
  ⟨true, true, true, true, false, false, false, false⟩

/-- Every capability present, prefer-narrower hint set. -/
def fsAllNarrow : FeatureSet :=
  ⟨true, true, true, true, true, true, true, true⟩

/-- Every capability present, prefer-narrower hint clear. -/
def fsAllWide : FeatureSet :=
  ⟨true, true, true, true, true, true, true, false⟩

end CrcPclmul

namespace CrcPclmul

/-- The folding-constants blob: `CRC_PCLMUL` only ever reads its
`fold_across_128_bits_consts` member and passes it, as an opaque
pointer, to the selected kernel.  The pointer is modelled as a `Nat`. -/
structure CrcConsts where
  fold_across_128_bits_consts : Nat

/-- Events emitted by one run of the `CRC_PCLMUL` entry point, in order:
`kernel_fpu_begin()`, the static call of the installed pclmul kernel,
`kernel_fpu_end()`, and the scalar fallback call performed by the caller
when the macro falls through. -/
inductive CrcEvent
  | fpuBegin
  | pclmulCall
  | fpuEnd
  | fallbackCall
deriving DecidableEq

/-- The guard of `CRC_PCLMUL`, from the source:
`(len) >= ((is_fallback_sliced) ? 64 : 16) &&
static_branch_likely(&have_pclmulqdq) && crypto_simd_usable()`. -/
def crcPclmulCond (is_fallback_sliced have_pclmulqdq simd_usable : Bool)
    (len : Nat) : Bool :=
  decide ((if is_fallback_sliced then 64 else 16) ≤ len) &&
    have_pclmulqdq && simd_usable

/-- One call of a CRC arch entry point built on `CRC_PCLMUL`: if the
guard holds, run `kernel_fpu_begin()`, the static call of `slot` on
`(crc, p, len, consts_ptr)`, `kernel_fpu_end()`, and return the kernel's
result; otherwise fall through to the scalar `fallback`.  Returns the
event trace together with the resulting accumulator.  Buffers are byte
lists; the length argument of the C code is the list's length. -/
def crcPclmulTrace (slot : Nat → List Nat → Nat → Nat)
    (fallback : Nat → List Nat → Nat) (consts : CrcConsts)
    (have_pclmulqdq simd_usable is_fallback_sliced : Bool)
    (crc : Nat) (p : List Nat) : List CrcEvent × Nat :=
  if crcPclmulCond is_fallback_sliced have_pclmulqdq simd_usable p.length then
    ([.fpuBegin, .pclmulCall, .fpuEnd],
      slot crc p consts.fold_across_128_bits_consts)
  else
    ([.fallbackCall], fallback crc p)

/-- The accumulator returned by the entry point (the second component of
`crcPclmulTrace`). -/
def crcPclmul (slot : Nat → List Nat → Nat → Nat)
    (fallback : Nat → List Nat → Nat) (consts : CrcConsts)
    (have_pclmulqdq simd_usable is_fallback_sliced : Bool)
    (crc : Nat) (p : List Nat) : Nat :=
  (crcPclmulTrace slot fallback consts have_pclmulqdq simd_usable
    is_fallback_sliced crc p).2

/-- Checks an event trace against the FPU-guard discipline, tracking the
nesting depth of `kernel_fpu_begin`/`kernel_fpu_end`: a kernel static
call happens only while the guard is held, `kernel_fpu_end` only while
the guard is held, and at the end of the trace the guard is no longer
held. -/
def guardOk : List CrcEvent → Nat → Bool
  | [], d => d == 0
  | .fpuBegin :: rest, d => guardOk rest (d + 1)
  | .fpuEnd :: rest, d => decide (0 < d) && guardOk rest (d - 1)
  | .pclmulCall :: rest, d => decide (0 < d) && guardOk rest d
  | .fallbackCall :: rest, d => guardOk rest d

theorem contains_pclmulCall_eq_cond (slot : Nat → List Nat → Nat → Nat)
    (fallback : Nat → List Nat → Nat) (consts : CrcConsts)
    (hq su sliced : Bool) (crc : Nat) (p : List Nat) :
    (crcPclmulTrace slot fallback consts hq su sliced crc p).1.contains
        CrcEvent.pclmulCall =
      crcPclmulCond sliced hq su p.length := by
  unfold crcPclmulTrace
  by_cases h : crcPclmulCond sliced hq su p.length = true <;>
    simp [h]

theorem trace_of_cond_false (slot : Nat → List Nat → Nat → Nat)
    (fallback : Nat → List Nat → Nat) (consts : CrcConsts)
    (hq su sliced : Bool) (crc : Nat) (p : List Nat)
    (h : crcPclmulCond sliced hq su p.length = false) :
    crcPclmulTrace slot fallback consts hq su sliced crc p =
      ([.fallbackCall], fallback crc p) := by
  unfold crcPclmulTrace
  simp [h]

theorem cond_len_lower_bound (sliced hq su : Bool) (len : Nat)
    (h : crcPclmulCond sliced hq su len = true) : 16 ≤ len := by
  unfold crcPclmulCond at h
  simp only [Bool.and_eq_true, decide_eq_true_eq] at h
  cases sliced <;> simp at h <;> omega

/-- C1: `INIT_CRC_PCLMUL` realizes exactly the spec's ordered decision
table, where carry-less-multiply support is the conjunction of the
assembler-support config and the VPCLMULQDQ CPU flag, the base wide
vector extension is AVX2 with YMM xfeature OS support, the widest
extension is AVX512BW+AVX512VL with AVX-512 xfeature OS support, and the
prefer-narrower hint is `X86_FEATURE_PREFER_YMM`; in particular the four
named feature combinations select Baseline (`pclmul_sse`),
Accelerated-Wide1 (`vpclmul_avx2`), Accelerated-Wide2-Narrow
(`vpclmul_avx10_256`) and Accelerated-Wide2-Wide (`vpclmul_avx10_512`)
respectively. -/
theorem init_matches_probe_spec :
    (∀ fs : FeatureSet,
      (initCrcPclmul fs initialSlot).1 =
        probeSpecTable (fs.as_vpclmulqdq && fs.vpclmulqdq) fs.avx2
          fs.xfeatures_ymm (fs.avx512bw && fs.avx512vl) fs.xfeatures_avx512
          fs.prefer_ymm) ∧
    (initCrcPclmul fsNone initialSlot).1 = .pclmul_sse ∧
    (initCrcPclmul fsBaseOnly initialSlot).1 = .vpclmul_avx2 ∧
    (initCrcPclmul fsAllNarrow initialSlot).1 = .vpclmul_avx10_256 ∧
    (initCrcPclmul fsAllWide initialSlot).1 = .vpclmul_avx10_512 := by
  refine ⟨?_, by decide, by decide, by decide, by decide⟩
  intro fs
  obtain ⟨a, b, c, d, e, f, g, h⟩ := fs
  revert a b c d e f g h
  decide

/-- C2: whenever the installed kernel agrees with the scalar fallback on
every buffer of length at least 16 (the kernels' stated contract), the
dispatch entry point returns a result bit-identical to the fallback's for
every initial accumulator, every buffer (length 0 included), every flag
combination and either fallback kind, whichever path it takes. -/
theorem dispatch_equals_fallback (slot : Nat → List Nat → Nat → Nat)
    (fallback : Nat → List Nat → Nat) (consts : CrcConsts)
    (hq su sliced : Bool) (crc : Nat) (p : List Nat)
    (hk : ∀ c q, 16 ≤ List.length q →
      slot c q consts.fold_across_128_bits_consts = fallback c q) :
    crcPclmul slot fallback consts hq su sliced crc p = fallback crc p := by
  unfold crcPclmul crcPclmulTrace
  by_cases h : crcPclmulCond sliced hq su p.length = true
  · simp only [h, if_true]
    exact hk crc p (cond_len_lower_bound sliced hq su p.length h)
  · simp only [h, if_false, Bool.false_eq_true]

/-- Witness for C2 at a concrete slot, fallback and input. -/
theorem dispatch_equals_fallback_witness :
    crcPclmul (fun c q _ => c + q.sum) (fun c q => c + q.sum) ⟨0⟩
        true true false 7 [1, 2, 3] =
      (fun (c : Nat) (q : List Nat) => c + q.sum) 7 [1, 2, 3] :=
  dispatch_equals_fallback (fun c q _ => c + q.sum) (fun c q => c + q.sum)
    ⟨0⟩ true true false 7 [1, 2, 3] (fun _ _ _ => rfl)

/-- C3: the dispatch entry point takes the accelerated path (its trace
contains the kernel static call) exactly when the `have_pclmulqdq`
feature flag is set, the context allows SIMD, and the length reaches the
threshold (64 for a sliced fallback, 16 for a naive one); in particular
with the naive fallback any length-15 buffer always falls back while a
length-16 buffer accelerates exactly when the flag and SIMD usability
hold, and with the sliced fallback the boundary sits at 63 versus 64. -/
theorem threshold_gate :
    (∀ (slot : Nat → List Nat → Nat → Nat)
      (fallback : Nat → List Nat → Nat) (consts : CrcConsts)
      (hq su sliced : Bool) (crc : Nat) (p : List Nat),
      (crcPclmulTrace slot fallback consts hq su sliced crc p).1.contains
          CrcEvent.pclmulCall = true ↔
        hq = true ∧ su = true ∧
          (if sliced = true then 64 else 16) ≤ p.length) ∧
    (∀ (slot : Nat → List Nat → Nat → Nat)
      (fallback : Nat → List Nat → Nat) (consts : CrcConsts)
      (hq su : Bool) (crc b : Nat),
      (crcPclmulTrace slot fallback consts hq su false crc
          (List.replicate 15 b)).1 = [.fallbackCall] ∧
      (crcPclmulTrace slot fallback consts hq su false crc
          (List.replicate 16 b)).1.contains CrcEvent.pclmulCall =
        (hq && su) ∧
      (crcPclmulTrace slot fallback consts hq su true crc
          (List.replicate 63 b)).1 = [.fallbackCall] ∧
      (crcPclmulTrace slot fallback consts hq su true crc
          (List.replicate 64 b)).1.contains CrcEvent.pclmulCall =
        (hq && su)) := by
  constructor
  · intro slot fallback consts hq su sliced crc p
    rw [contains_pclmulCall_eq_cond]
    unfold crcPclmulCond
    simp only [Bool.and_eq_true, decide_eq_true_eq]
    cases sliced <;> simp <;> tauto
  · intro slot fallback consts hq su crc b
    refine ⟨?_, ?_, ?_, ?_⟩
    · rw [(trace_of_cond_false _ _ _ _ _ _ _ _ ?_)]
      unfold crcPclmulCond
      simp
    · rw [contains_pclmulCall_eq_cond]
      unfold crcPclmulCond
      simp
    · rw [(trace_of_cond_false _ _ _ _ _ _ _ _ ?_)]
      unfold crcPclmulCond
      simp
    · rw [contains_pclmulCall_eq_cond]
      unfold crcPclmulCond
      simp

/-- C4: every run of the dispatch entry point obeys the FPU-guard
discipline: its trace is either the accelerated one, in which
`kernel_fpu_begin` precedes the slot call and `kernel_fpu_end` follows it
before the return, or the plain fallback one; in both cases the kernel is
invoked only while the guard is held and the guard is no longer held when
the call returns. -/
theorem guard_release_unconditional :
    ∀ (slot : Nat → List Nat → Nat → Nat)
      (fallback : Nat → List Nat → Nat) (consts : CrcConsts)
      (hq su sliced : Bool) (crc : Nat) (p : List Nat),
      guardOk (crcPclmulTrace slot fallback consts hq su sliced crc p).1 0 =
          true ∧
      ((crcPclmulTrace slot fallback consts hq su sliced crc p).1 =
          [.fpuBegin, .pclmulCall, .fpuEnd] ∨
        (crcPclmulTrace slot fallback consts hq su sliced crc p).1 =
          [.fallbackCall]) := by
  intro slot fallback consts hq su sliced crc p
  unfold crcPclmulTrace
  by_cases h : crcPclmulCond sliced hq su p.length = true <;>
    simp [h, guardOk]

/-- C5 counterexample: with no capability present, `INIT_CRC_PCLMUL`
performs zero `static_call_update` writes to the slot, not exactly one;
the slot simply retains its statically installed Baseline content. -/
theorem slot_write_once_counterexample :
    ¬ (initCrcPclmul fsNone initialSlot).2 = 1 := by decide

/-- C5 (amended): the slot holds the Baseline implementation
(`pclmul_sse`) before initialization runs; one run of `INIT_CRC_PCLMUL`
writes the slot at most once — exactly once when an accelerated variant
is chosen and not at all when Baseline is kept — and afterwards the slot
holds exactly the implementation chosen by the probe's decision table. -/
theorem slot_lifecycle :
    initialSlot = PclmulFn.pclmul_sse ∧
    ∀ fs : FeatureSet,
      (initCrcPclmul fs initialSlot).2 ≤ 1 ∧
      (initCrcPclmul fs initialSlot).1 =
        probeSpecTable (fs.as_vpclmulqdq && fs.vpclmulqdq) fs.avx2
          fs.xfeatures_ymm (fs.avx512bw && fs.avx512vl) fs.xfeatures_avx512
          fs.prefer_ymm ∧
      ((initCrcPclmul fs initialSlot).2 = 0 ↔
        (initCrcPclmul fs initialSlot).1 = initialSlot) := by
  refine ⟨rfl, ?_⟩
  intro fs
  obtain ⟨a, b, c, d, e, f, g, h⟩ := fs
  revert a b c d e f g h
  decide

/-- C6: the dispatch entry point is total and surfaces no error: when
SIMD is not usable in the current context the guard is never even
attempted and the scalar fallback silently produces the result; on every
input the result is either the fallback's value or the installed
kernel's value; and a zero-length buffer is handled (by the fallback),
never rejected. -/
theorem dispatch_total_no_error :
    (∀ (slot : Nat → List Nat → Nat → Nat)
      (fallback : Nat → List Nat → Nat) (consts : CrcConsts)
      (hq sliced : Bool) (crc : Nat) (p : List Nat),
      crcPclmulTrace slot fallback consts hq false sliced crc p =
        ([.fallbackCall], fallback crc p)) ∧
    (∀ (slot : Nat → List Nat → Nat → Nat)
      (fallback : Nat → List Nat → Nat) (consts : CrcConsts)
      (hq su sliced : Bool) (crc : Nat) (p : List Nat),
      crcPclmul slot fallback consts hq su sliced crc p = fallback crc p ∨
      crcPclmul slot fallback consts hq su sliced crc p =
        slot crc p consts.fold_across_128_bits_consts) ∧
    (∀ (slot : Nat → List Nat → Nat → Nat)
      (fallback : Nat → List Nat → Nat) (consts : CrcConsts)
      (hq su sliced : Bool) (crc : Nat),
      crcPclmul slot fallback consts hq su sliced crc [] =
        fallback crc []) := by
  refine ⟨?_, ?_, ?_⟩
  · intro slot fallback consts hq sliced crc p
    apply trace_of_cond_false
    unfold crcPclmulCond
    simp
  · intro slot fallback consts hq su sliced crc p
    unfold crcPclmul crcPclmulTrace
    by_cases h : crcPclmulCond sliced hq su p.length = true <;> simp [h]
  · intro slot fallback consts hq su sliced crc
    unfold crcPclmul crcPclmulTrace crcPclmulCond
    cases sliced <;> simp

/-- C7: on an empty buffer the entry point returns the accumulator
unchanged, for every flag combination (hence for every selected
variant), as long as the external scalar fallback leaves the accumulator
unchanged on an empty buffer — which is exactly idempotence of CRC
update on zero bytes. -/
theorem dispatch_empty_identity (slot : Nat → List Nat → Nat → Nat)
    (fallback : Nat → List Nat → Nat) (consts : CrcConsts)
    (hq su sliced : Bool) (crc : Nat)
    (hfb : fallback crc [] = crc) :
    crcPclmul slot fallback consts hq su sliced crc [] = crc := by
  unfold crcPclmul crcPclmulTrace crcPclmulCond
  cases sliced <;> simpa using hfb

/-- Witness for C7 at a concrete fallback and accumulator. -/
theorem dispatch_empty_identity_witness :
    (fun (c : Nat) (q : List Nat) => c + q.sum) 5 [] = 5 ∧
    crcPclmul (fun c q _ => c * q.length) (fun c q => c + q.sum) ⟨3⟩
        true true true 5 [] = 5 :=
  ⟨rfl, dispatch_empty_identity (fun c q _ => c * q.length)
    (fun c q => c + q.sum) ⟨3⟩ true true true 5 rfl⟩

/-- C8: the installed SIMD kernel is only ever invoked on buffers of
length at least 16: both possible thresholds (16 naive, 64 sliced) are
at least 16, so the threshold gate alone enforces the kernels' stated
length precondition. -/
theorem kernel_min_len (slot : Nat → List Nat → Nat → Nat)
    (fallback : Nat → List Nat → Nat) (consts : CrcConsts)
    (hq su sliced : Bool) (crc : Nat) (p : List Nat)
    (h : (crcPclmulTrace slot fallback consts hq su sliced crc p).1.contains
        CrcEvent.pclmulCall = true) :
    16 ≤ p.length := by
  rw [contains_pclmulCall_eq_cond] at h
  exact cond_len_lower_bound sliced hq su p.length h

/-- Witness for C8: a 16-byte buffer with all flags set does invoke the
kernel, and its length is indeed at least 16. -/
theorem kernel_min_len_witness :
    (crcPclmulTrace (fun c _ _ => c) (fun c _ => c) ⟨0⟩ true true false 0
        (List.replicate 16 0)).1.contains CrcEvent.pclmulCall = true ∧
    16 ≤ (List.replicate 16 (0 : Nat)).length :=
  ⟨by decide,
    kernel_min_len (fun c _ _ => c) (fun c _ => c) ⟨0⟩ true true false 0
      (List.replicate 16 0) (by decide)⟩

end CrcPclmul

namespace X3dVcache

/-- The `EINVAL` errno value. -/
def EINVAL : Int := 22

/-- The `ENODEV` errno value. -/
def ENODEV : Int := 19

/-- `sysfs_streq`: two strings are sysfs-equal when they are equal or
when one is the other followed by a single trailing newline. -/
def sysfs_streq (s1 s2 : String) : Bool :=
  s1 == s2 || s1 == s2 ++ "\n" || s2 == s1 ++ "\n"

/-- `amd_x3d_mode_strings`, indexed by `enum amd_x3d_mode_type`. -/
def amd_x3d_mode_strings : List String := ["frequency", "cache"]

/-- `MODE_INDEX_FREQ` from `enum amd_x3d_mode_type`. -/
def MODE_INDEX_FREQ : Nat := 0

/-- `MODE_INDEX_CACHE` from `enum amd_x3d_mode_type`. -/
def MODE_INDEX_CACHE : Nat := 1

/-- The scan loop of `__sysfs_match_string`, carrying the index of the
entry under examination. -/
def match_string_from (l : List String) (buf : String) (i : Nat) : Int :=
  match l with
  | [] => -EINVAL
  | s :: rest =>
    if sysfs_streq s buf then (i : Int) else match_string_from rest buf (i + 1)

/-- `sysfs_match_string`: index of the first entry sysfs-equal to `buf`,
or `-EINVAL` when no entry matches. -/
def sysfs_match_string (l : List String) (buf : String) : Int :=
  match_string_from l buf 0

/-- The driver state relevant to the mode attribute: `curr_mode` holds
the `enum amd_x3d_mode_type` value (an unsigned integer, hence `Nat`).
The device pointers, ACPI handle and mutex carry no data the mode logic
reads. -/
structure AmdX3dDev where
  curr_mode : Nat
deriving DecidableEq

/-- `amd_x3d_mode_switch`: evaluate the `_DSM` with the requested state;
on firmware failure (`acpi_evaluate_dsm` returning NULL, modelled by
`dsm_ok = false`) report `-EINVAL` and leave `curr_mode` untouched,
otherwise record the new state and return 0. -/
def amd_x3d_mode_switch (dsm_ok : Bool) (data : AmdX3dDev)
    (new_state : Nat) : Int × AmdX3dDev :=
  if !dsm_ok then (-EINVAL, data)
  else (0, { data with curr_mode := new_state })

/-- `amd_x3d_mode_store`: match `buf` against the mode-string table; on
no match return the negative matcher result unchanged; otherwise switch
to the matched mode and return the switch's error, or `count` on
success.  Returns the `ssize_t` result together with the state after the
call. -/
def amd_x3d_mode_store (dsm_ok : Bool) (data : AmdX3dDev) (buf : String)
    (count : Nat) : Int × AmdX3dDev :=
  let ret := sysfs_match_string amd_x3d_mode_strings buf
  if ret < 0 then (ret, data)
  else
    let r := amd_x3d_mode_switch dsm_ok data ret.toNat
    (if r.1 ≠ 0 then r.1 else (count : Int), r.2)

/-- `amd_x3d_mode_show`: emit the current mode string followed by a
newline, or `-EINVAL` when `curr_mode` lies outside the table (the
`< MODE_INDEX_FREQ` half of the range check is vacuous for the unsigned
enum, as it is in the C). -/
def amd_x3d_mode_show (data : AmdX3dDev) : Except Int String :=
  if data.curr_mode > MODE_INDEX_CACHE ∨ data.curr_mode < MODE_INDEX_FREQ then
    Except.error (-EINVAL)
  else
    Except.ok (amd_x3d_mode_strings.getD data.curr_mode "" ++ "\n")

/-- C9: `curr_mode` changes only when the firmware call succeeds: a
store of a string sysfs-matching neither "frequency" nor "cache" returns
`-EINVAL` with the state untouched; a store of a matching string whose
`_DSM` evaluation fails returns `-EINVAL` with the state untouched; and
a store of a matching string whose `_DSM` evaluation succeeds returns
`count` with `curr_mode` set to the matched mode. -/
theorem store_changes_mode_only_on_success :
    (∀ (dsm_ok : Bool) (data : AmdX3dDev) (buf : String) (count : Nat),
      sysfs_streq "frequency" buf = false →
      sysfs_streq "cache" buf = false →
      amd_x3d_mode_store dsm_ok data buf count = (-EINVAL, data)) ∧
    (∀ (data : AmdX3dDev) (buf : String) (count : Nat),
      0 ≤ sysfs_match_string amd_x3d_mode_strings buf →
      amd_x3d_mode_store false data buf count = (-EINVAL, data)) ∧
    (∀ (data : AmdX3dDev) (buf : String) (count : Nat) (i : Nat),
      sysfs_match_string amd_x3d_mode_strings buf = (i : Int) →
      amd_x3d_mode_store true data buf count =
        ((count : Int), { data with curr_mode := i })) := by
  refine ⟨?_, ?_, ?_⟩
  · intro dsm_ok data buf count h1 h2
    simp [amd_x3d_mode_store, sysfs_match_string, amd_x3d_mode_strings,
      match_string_from, h1, h2, EINVAL]
  · intro data buf count h
    unfold amd_x3d_mode_store
    have hlt : ¬ sysfs_match_string amd_x3d_mode_strings buf < 0 := by omega
    simp [hlt, amd_x3d_mode_switch, EINVAL]
  · intro data buf count i h
    unfold amd_x3d_mode_store
    have hlt : ¬ sysfs_match_string amd_x3d_mode_strings buf < 0 := by
      rw [h]; omega
    simp [hlt, h, amd_x3d_mode_switch]

/-- Witness for C9 on concrete inputs: a store of "performance" fails
with the state unchanged, a store of "cache" with a failing firmware
call fails with the state unchanged, and a store of "cache" with a
succeeding firmware call returns the count and records the cache mode. -/
theorem store_changes_mode_only_on_success_witness :
    amd_x3d_mode_store true ⟨0⟩ "performance" 12 = (-EINVAL, ⟨0⟩) ∧
    amd_x3d_mode_store false ⟨0⟩ "cache" 6 = (-EINVAL, ⟨0⟩) ∧
    amd_x3d_mode_store true ⟨0⟩ "cache" 6 = ((6 : Int), ⟨1⟩) :=
  ⟨store_changes_mode_only_on_success.1 true ⟨0⟩ "performance" 12
      (by decide) (by decide),
    store_changes_mode_only_on_success.2.1 ⟨0⟩ "cache" 6 (by decide),
    store_changes_mode_only_on_success.2.2 ⟨0⟩ "cache" 6 1 (by decide)⟩

/-- C10: after a successful store of "frequency" or "cache" the show
operation emits exactly that string followed by a newline (and the store
returned `count`); and on any state, show either reports `-EINVAL` or
emits a member of the two-entry mode-string table followed by a
newline. -/
theorem show_roundtrips_successful_store :
    (∀ (data : AmdX3dDev) (count : Nat),
      (amd_x3d_mode_store true data "frequency" count).1 = (count : Int) ∧
      amd_x3d_mode_show (amd_x3d_mode_store true data "frequency" count).2 =
        Except.ok "frequency\n" ∧
      (amd_x3d_mode_store true data "cache" count).1 = (count : Int) ∧
      amd_x3d_mode_show (amd_x3d_mode_store true data "cache" count).2 =
        Except.ok "cache\n") ∧
    (∀ data : AmdX3dDev,
      amd_x3d_mode_show data = Except.error (-EINVAL) ∨
      ∃ s, s ∈ amd_x3d_mode_strings ∧
        amd_x3d_mode_show data = Except.ok (s ++ "\n")) := by
  constructor
  · intro data count
    refine ⟨?_, ?_, ?_, ?_⟩ <;>
      simp [amd_x3d_mode_store, sysfs_match_string, match_string_from,
        sysfs_streq, amd_x3d_mode_strings, amd_x3d_mode_switch,
        amd_x3d_mode_show, MODE_INDEX_CACHE, MODE_INDEX_FREQ]
  · intro data
    obtain ⟨m⟩ := data
    match m with
    | 0 =>
      right
      exact ⟨"frequency", by simp [amd_x3d_mode_strings], rfl⟩
    | 1 =>
      right
      exact ⟨"cache", by simp [amd_x3d_mode_strings], rfl⟩
    | n + 2 =>
      left
      have h2 : MODE_INDEX_CACHE < n + 2 := by
        unfold MODE_INDEX_CACHE; omega
      simp [amd_x3d_mode_show, h2]

end X3dVcache
